import Mathlib

/-!
Verification of the inventory (estoque) domain entity and transport handlers
of the `tcc-ddd-microservice-estoque-sam` repository.

The embedding follows `src/estoque/domain/entities/estoque_produto.py` and
`src/handlers/estoque_handler.py`. Python integers are modelled as `Int`;
the `datetime.utcnow()` timestamp is modelled as an abstract tick `now : Nat`
passed to every mutating operation. Each mutating method of the Python class
is modelled as a function `EstoqueProduto → Int → Nat → EstoqueProduto × Option DomainError`:
the returned state is the state of the object when the method returns or
raises (Python objects survive an exception), and the `Option DomainError`
is `some e` exactly when the method raises. Statements are translated in
source order, so a raise that happens before any field assignment returns
the input state unchanged.
-/

/-- The two domain exception kinds of
`src/shared/domain/exceptions/base.py` as used by the entity:
`ValidationException` and `BusinessRuleException`, each carrying a message. -/
inductive DomainError where
  | validationErr (msg : String)
  | businessRuleErr (msg : String)
deriving DecidableEq

/-- State of the `EstoqueProduto` entity
(`src/estoque/domain/entities/estoque_produto.py`, lines 17-49).
`produto_id` is an opaque identifier; `unidade_medida` is kept as the raw
string (the `UnidadeMedida` value object is outside the shown sources and
none of the claims depend on its validation). `atualizado_em` is the
last-mutation tick. -/
structure EstoqueProduto where
  produto_id : Nat
  quantidade_atual : Int
  quantidade_reservada : Int
  nivel_minimo : Int
  unidade_medida : String
  atualizado_em : Nat
deriving DecidableEq

namespace EstoqueProduto

/-- The four numeric invariants listed in the spec (data model §3). -/
def Invariants (s : EstoqueProduto) : Prop :=
  0 ≤ s.quantidade_atual ∧ 0 ≤ s.quantidade_reservada ∧
    s.quantidade_reservada ≤ s.quantidade_atual ∧ 0 ≤ s.nivel_minimo

instance (s : EstoqueProduto) : Decidable s.Invariants := by
  unfold Invariants; infer_instance

/-- Constructor `EstoqueProduto.__init__` (lines 17-49): validates the four
quantity constraints in source order, then stores the fields and stamps the
update time. -/
def init (produto_id : Nat) (quantidade_atual : Int) (unidade_medida : String)
    (quantidade_reservada : Int) (nivel_minimo : Int) (now : Nat) :
    Except DomainError EstoqueProduto :=
  if quantidade_atual < 0 then
    .error (.validationErr "Current quantity cannot be negative")
  else if quantidade_reservada < 0 then
    .error (.validationErr "Reserved quantity cannot be negative")
  else if nivel_minimo < 0 then
    .error (.validationErr "Minimum level cannot be negative")
  else if quantidade_reservada > quantidade_atual then
    .error (.validationErr "Reserved quantity cannot exceed current quantity")
  else
    .ok ⟨produto_id, quantidade_atual, quantidade_reservada, nivel_minimo,
         unidade_medida, now⟩

/-- Property `quantidade_disponivel` (lines 66-69): current minus reserved. -/
def quantidade_disponivel (s : EstoqueProduto) : Int :=
  s.quantidade_atual - s.quantidade_reservada

/-- Method `adicionar_estoque` (lines 86-92). -/
def adicionar_estoque (s : EstoqueProduto) (quantidade : Int) (now : Nat) :
    EstoqueProduto × Option DomainError :=
  if quantidade ≤ 0 then
    (s, some (.validationErr "Quantity to add must be positive"))
  else
    ({ s with quantidade_atual := s.quantidade_atual + quantidade,
              atualizado_em := now }, none)

/-- Method `remover_estoque` (lines 94-106). -/
def remover_estoque (s : EstoqueProduto) (quantidade : Int) (now : Nat) :
    EstoqueProduto × Option DomainError :=
  if quantidade ≤ 0 then
    (s, some (.validationErr "Quantity to remove must be positive"))
  else if quantidade > s.quantidade_disponivel then
    (s, some (.businessRuleErr
      ("Insufficient available stock. Available: " ++
        toString s.quantidade_disponivel ++ ", Requested: " ++
        toString quantidade)))
  else
    ({ s with quantidade_atual := s.quantidade_atual - quantidade,
              atualizado_em := now }, none)

/-- Method `liberar_reserva` (lines 109-121). -/
def liberar_reserva (s : EstoqueProduto) (quantidade : Int) (now : Nat) :
    EstoqueProduto × Option DomainError :=
  if quantidade ≤ 0 then
    (s, some (.validationErr "Quantity to release must be positive"))
  else if quantidade > s.quantidade_reservada then
    (s, some (.businessRuleErr
      ("Cannot release more than reserved. Reserved: " ++
        toString s.quantidade_reservada ++ ", Requested: " ++
        toString quantidade)))
  else
    ({ s with quantidade_reservada := s.quantidade_reservada - quantidade,
              atualizado_em := now }, none)

/-- Method `ajustar_estoque` (lines 123-135). -/
def ajustar_estoque (s : EstoqueProduto) (nova_quantidade : Int) (now : Nat) :
    EstoqueProduto × Option DomainError :=
  if nova_quantidade < 0 then
    (s, some (.validationErr "New quantity cannot be negative"))
  else if nova_quantidade < s.quantidade_reservada then
    (s, some (.businessRuleErr
      ("New quantity cannot be less than reserved quantity. Reserved: " ++
        toString s.quantidade_reservada ++ ", New: " ++
        toString nova_quantidade)))
  else
    ({ s with quantidade_atual := nova_quantidade,
              atualizado_em := now }, none)

/-- Method `update_minimum_level` (lines 137-143). -/
def update_minimum_level (s : EstoqueProduto) (nivel_minimo : Int) (now : Nat) :
    EstoqueProduto × Option DomainError :=
  if nivel_minimo < 0 then
    (s, some (.validationErr "Minimum level cannot be negative"))
  else
    ({ s with nivel_minimo := nivel_minimo, atualizado_em := now }, none)

/-- Query `is_below_minimum` (lines 145-147). -/
def is_below_minimum (s : EstoqueProduto) : Bool :=
  s.quantidade_atual ≤ s.nivel_minimo

/-- Query `is_out_of_stock` (lines 149-151). -/
def is_out_of_stock (s : EstoqueProduto) : Bool :=
  s.quantidade_atual == 0

/-- Query `has_available_stock` (lines 153-155). -/
def has_available_stock (s : EstoqueProduto) (quantidade : Int) : Bool :=
  s.quantidade_disponivel ≥ quantidade

end EstoqueProduto

/-!
Transport layer, from `src/handlers/estoque_handler.py`. A handler outcome
is either a JSON success response (`success_response` / `created_response`)
or a raised `LambdaException` carrying an HTTP status code and a message.
The delegated application-service call is modelled by its outcome: a
returned value or a raised exception.
-/

/-- An exception escaping the delegated service call, as the handler's
`except` clauses discriminate it: the two domain exceptions, a
`LambdaException` (status code plus message), or any other exception. -/
inductive ServiceExc where
  | validationE (msg : String)
  | businessE (msg : String)
  | lambdaE (status : Nat) (msg : String)
  | otherE (msg : String)
deriving DecidableEq

/-- Outcome of an awaited service call: a returned value or an exception. -/
inductive CallResult (α : Type) where
  | ok (v : α)
  | exc (e : ServiceExc)
deriving DecidableEq

/-- HTTP-level result of a handler: a success body (200), a created body
(201), or a `LambdaException` surfaced with its status and message. -/
inductive HttpResult where
  | success (body : String)
  | created (body : String)
  | lambdaError (status : Nat) (msg : String)
deriving DecidableEq

/-- `add_stock_handler` (lines 123-140), after decorators: delegate to
`service.add_stock`, return 200 on success; `ValidationException` becomes a
400 with its message, `BusinessRuleException` a 409 with its message, and
any other exception (a `LambdaException` from the service included, since
only the bare `except Exception` clause matches it) a generic 500. The
delegated call is abstracted by its outcome. -/
def add_stock_handler (outcome : CallResult String) : HttpResult :=
  match outcome with
  | .ok body => .success body
  | .exc (.validationE m) => .lambdaError 400 m
  | .exc (.businessE m) => .lambdaError 409 m
  | .exc (.lambdaE _ _) => .lambdaError 500 "Internal server error"
  | .exc (.otherE _) => .lambdaError 500 "Internal server error"

/-- `remove_stock_handler` (lines 143-164): identical exception mapping. -/
def remove_stock_handler (outcome : CallResult String) : HttpResult :=
  match outcome with
  | .ok body => .success body
  | .exc (.validationE m) => .lambdaError 400 m
  | .exc (.businessE m) => .lambdaError 409 m
  | .exc (.lambdaE _ _) => .lambdaError 500 "Internal server error"
  | .exc (.otherE _) => .lambdaError 500 "Internal server error"

/-- `adjust_stock_handler` (lines 167-188): identical exception mapping. -/
def adjust_stock_handler (outcome : CallResult String) : HttpResult :=
  match outcome with
  | .ok body => .success body
  | .exc (.validationE m) => .lambdaError 400 m
  | .exc (.businessE m) => .lambdaError 409 m
  | .exc (.lambdaE _ _) => .lambdaError 500 "Internal server error"
  | .exc (.otherE _) => .lambdaError 500 "Internal server error"

/-- `create_inventory_handler` (lines 27-48): as the movement handlers but
returning 201 via `created_response` on success. -/
def create_inventory_handler (outcome : CallResult String) : HttpResult :=
  match outcome with
  | .ok body => .created body
  | .exc (.validationE m) => .lambdaError 400 m
  | .exc (.businessE m) => .lambdaError 409 m
  | .exc (.lambdaE _ _) => .lambdaError 500 "Internal server error"
  | .exc (.otherE _) => .lambdaError 500 "Internal server error"

/-- `get_inventory_by_product_handler` (lines 51-82). `produto_id` is the
optional path parameter (Python treats the empty string as missing too);
`valid_uuid` models `UUID(produto_id)` succeeding; the service call returns
an optional inventory representation or raises. The handler re-raises
`LambdaException` unchanged and turns every other exception — the domain
exceptions included, since no `except ValidationException` or
`except BusinessRuleException` clause exists here — into a generic 500. -/
def get_inventory_by_product_handler (produto_id : Option String)
    (valid_uuid : String → Bool)
    (outcome : String → CallResult (Option String)) : HttpResult :=
  match produto_id with
  | none => .lambdaError 400 "produto_id is required"
  | some pid =>
    if pid = "" then .lambdaError 400 "produto_id is required"
    else if ¬ valid_uuid pid then .lambdaError 400 "Invalid produto_id format"
    else
      match outcome pid with
      | .ok (some inv) => .success inv
      | .ok none => .lambdaError 404 ("Inventory not found for product: " ++ pid)
      | .exc (.lambdaE st m) => .lambdaError st m
      | .exc (.validationE _) => .lambdaError 500 "Internal server error"
      | .exc (.businessE _) => .lambdaError 500 "Internal server error"
      | .exc (.otherE _) => .lambdaError 500 "Internal server error"

/-- `list_inventory_handler` (lines 85-113), pagination part: `skip`
defaults to 0 and `limit` to 100 upstream; with the parsed integers the
handler raises 400 for `skip < 0`, then 400 for `limit < 1 or limit > 1000`,
and otherwise calls `service.get_all_inventory(skip, limit)`. The service
and the rest of the handler are abstracted as `service`. -/
def list_inventory_handler (skip limit : Int)
    (service : Int → Int → HttpResult) : HttpResult :=
  if skip < 0 then .lambdaError 400 "skip must be >= 0"
  else if limit < 1 ∨ limit > 1000 then
    .lambdaError 400 "limit must be between 1 and 1000"
  else service skip limit

/-- Example record of the spec (§8): `currentQuantity = 10`,
`reservedQuantity = 3`, `minimumLevel = 0`. -/
def exA : EstoqueProduto := ⟨0, 10, 3, 0, "UN", 0⟩

/-- Claim C1: starting from any state satisfying the four invariants
(`currentQuantity ≥ 0`, `reservedQuantity ≥ 0`,
`reservedQuantity ≤ currentQuantity`, `minimumLevel ≥ 0`), each of
`adicionar_estoque`, `remover_estoque`, `liberar_reserva`,
`ajustar_estoque`, and `update_minimum_level` leaves a state satisfying
all four invariants, whether it raises or succeeds; the constructor only
produces invariant-satisfying states and raises a `ValidationException`
whenever its arguments would violate one of them. -/
theorem c1_invariants_preserved (s : EstoqueProduto) (h : s.Invariants)
    (q : Int) (now : Nat) :
    (s.adicionar_estoque q now).1.Invariants ∧
    (s.remover_estoque q now).1.Invariants ∧
    (s.liberar_reserva q now).1.Invariants ∧
    (s.ajustar_estoque q now).1.Invariants ∧
    (s.update_minimum_level q now).1.Invariants ∧
    (∀ pid qa um qr nm n t,
      EstoqueProduto.init pid qa um qr nm n = .ok t → t.Invariants) ∧
    (∀ pid qa um qr nm n, (qa < 0 ∨ qr < 0 ∨ nm < 0 ∨ qa < qr) →
      ∃ m, EstoqueProduto.init pid qa um qr nm n =
        .error (.validationErr m)) := by
  have h' := h
  simp only [EstoqueProduto.Invariants] at h'
  refine ⟨?_, ?_, ?_, ?_, ?_, ?_, ?_⟩
  · simp only [EstoqueProduto.adicionar_estoque]
    split_ifs <;> simp only [EstoqueProduto.Invariants] <;> omega
  · simp only [EstoqueProduto.remover_estoque,
      EstoqueProduto.quantidade_disponivel]
    split_ifs <;> simp only [EstoqueProduto.Invariants] <;> omega
  · simp only [EstoqueProduto.liberar_reserva]
    split_ifs <;> simp only [EstoqueProduto.Invariants] <;> omega
  · simp only [EstoqueProduto.ajustar_estoque]
    split_ifs <;> simp only [EstoqueProduto.Invariants] <;> omega
  · simp only [EstoqueProduto.update_minimum_level]
    split_ifs <;> simp only [EstoqueProduto.Invariants] <;> omega
  · intro pid qa um qr nm n t ht
    simp only [EstoqueProduto.init] at ht
    split_ifs at ht with hA hB hC hD <;> simp only [Except.ok.injEq] at ht
    subst ht
    simp only [EstoqueProduto.Invariants]
    omega
  · intro pid qa um qr nm n hbad
    simp only [EstoqueProduto.init]
    split_ifs with hA hB hC hD
    · exact ⟨_, rfl⟩
    · exact ⟨_, rfl⟩
    · exact ⟨_, rfl⟩
    · exact ⟨_, rfl⟩
    · exfalso; omega

theorem c1_invariants_preserved_witness :
    exA.Invariants ∧ (exA.adicionar_estoque 5 1).1.Invariants :=
  ⟨by decide, (c1_invariants_preserved exA (by decide) 5 1).1⟩

/-- Claim C2: on an invariant-satisfying record, `remover_estoque q` with
`q > 0` raises a `BusinessRuleException` iff `q` exceeds the available
quantity, the error message carrying both the available and the requested
amounts; otherwise it succeeds, decreases `quantidade_atual` by exactly `q`
and leaves `quantidade_reservada` unchanged. On the spec example with
`quantidade_atual = 10`, `quantidade_reservada = 3`: removing 8 fails with
that message, removing 7 succeeds yielding current 3, reserved 3,
available 0. -/
theorem c2_remover_estoque_spec (s : EstoqueProduto) (h : s.Invariants)
    (q : Int) (now : Nat) (hq : 0 < q) :
    ((s.remover_estoque q now).2.isSome ↔ s.quantidade_disponivel < q) ∧
    (s.quantidade_disponivel < q →
      s.remover_estoque q now =
        (s, some (.businessRuleErr
          ("Insufficient available stock. Available: " ++
            toString s.quantidade_disponivel ++ ", Requested: " ++
            toString q)))) ∧
    (q ≤ s.quantidade_disponivel →
      s.remover_estoque q now =
        ({ s with quantidade_atual := s.quantidade_atual - q,
                  atualizado_em := now }, none)) ∧
    (exA.remover_estoque 8 1 =
      (exA, some (.businessRuleErr
        "Insufficient available stock. Available: 7, Requested: 8"))) ∧
    ((exA.remover_estoque 7 1).1.quantidade_atual = 3 ∧
      (exA.remover_estoque 7 1).1.quantidade_reservada = 3 ∧
      (exA.remover_estoque 7 1).1.quantidade_disponivel = 0 ∧
      (exA.remover_estoque 7 1).2 = none) := by
  refine ⟨?_, ?_, ?_, by decide, by decide⟩
  · simp only [EstoqueProduto.remover_estoque]
    split_ifs <;> simp <;> omega
  · intro hlt
    simp only [EstoqueProduto.remover_estoque]
    split_ifs <;> first | rfl | omega
  · intro hle
    simp only [EstoqueProduto.remover_estoque]
    split_ifs <;> first | rfl | omega

theorem c2_remover_estoque_spec_witness :
    exA.Invariants ∧ (0 : Int) < 7 ∧
      ((exA.remover_estoque 7 1).2.isSome ↔ exA.quantidade_disponivel < 7) :=
  ⟨by decide, by decide, (c2_remover_estoque_spec exA (by decide) 7 1 (by decide)).1⟩

/-- Claim C3: on an invariant-satisfying record, `ajustar_estoque n` raises
a `ValidationException` if `n < 0`, raises a `BusinessRuleException` if
`0 ≤ n < quantidade_reservada`, and otherwise sets `quantidade_atual` to
exactly `n` (absolute set), leaving `quantidade_reservada` and
`nivel_minimo` unchanged. On the example with `quantidade_reservada = 3`,
adjusting to 2 fails with a business-rule error and adjusting to 3
succeeds. -/
theorem c3_ajustar_estoque_spec (s : EstoqueProduto) (h : s.Invariants)
    (n : Int) (now : Nat) :
    (n < 0 →
      s.ajustar_estoque n now =
        (s, some (.validationErr "New quantity cannot be negative"))) ∧
    (0 ≤ n → n < s.quantidade_reservada →
      s.ajustar_estoque n now =
        (s, some (.businessRuleErr
          ("New quantity cannot be less than reserved quantity. Reserved: " ++
            toString s.quantidade_reservada ++ ", New: " ++ toString n)))) ∧
    (0 ≤ n → s.quantidade_reservada ≤ n →
      s.ajustar_estoque n now =
        ({ s with quantidade_atual := n, atualizado_em := now }, none)) ∧
    (exA.ajustar_estoque 2 1 =
      (exA, some (.businessRuleErr
        "New quantity cannot be less than reserved quantity. Reserved: 3, New: 2"))) ∧
    (exA.ajustar_estoque 3 1).2 = none := by
  refine ⟨?_, ?_, ?_, by decide, by decide⟩
  · intro hneg
    simp only [EstoqueProduto.ajustar_estoque]
    split_ifs <;> first | rfl | omega
  · intro h0 hlt
    simp only [EstoqueProduto.ajustar_estoque]
    split_ifs <;> first | rfl | omega
  · intro h0 hge
    simp only [EstoqueProduto.ajustar_estoque]
    split_ifs <;> first | rfl | omega

theorem c3_ajustar_estoque_spec_witness :
    exA.Invariants ∧ (0 : Int) ≤ 3 ∧ exA.quantidade_reservada ≤ 3 ∧
      exA.ajustar_estoque 3 1 =
        ({ exA with quantidade_atual := 3, atualizado_em := 1 }, none) :=
  ⟨by decide, by decide, by decide,
    (c3_ajustar_estoque_spec exA (by decide) 3 1).2.2.1 (by decide) (by decide)⟩

/-- Claim C4: on an invariant-satisfying record, `adicionar_estoque q`
raises a `ValidationException` iff `q ≤ 0`; for `q > 0` it succeeds,
increases `quantidade_atual` by exactly `q`, and leaves
`quantidade_reservada` and `nivel_minimo` unchanged. -/
theorem c4_adicionar_estoque_spec (s : EstoqueProduto) (h : s.Invariants)
    (q : Int) (now : Nat) :
    ((s.adicionar_estoque q now).2.isSome ↔ q ≤ 0) ∧
    (q ≤ 0 →
      s.adicionar_estoque q now =
        (s, some (.validationErr "Quantity to add must be positive"))) ∧
    (0 < q →
      s.adicionar_estoque q now =
        ({ s with quantidade_atual := s.quantidade_atual + q,
                  atualizado_em := now }, none)) := by
  refine ⟨?_, ?_, ?_⟩
  · simp only [EstoqueProduto.adicionar_estoque]
    split_ifs <;> simp <;> omega
  · intro hle
    simp only [EstoqueProduto.adicionar_estoque]
    split_ifs <;> first | rfl | omega
  · intro hpos
    simp only [EstoqueProduto.adicionar_estoque]
    split_ifs <;> first | rfl | omega

theorem c4_adicionar_estoque_spec_witness :
    exA.Invariants ∧ (0 : Int) < 5 ∧
      exA.adicionar_estoque 5 1 =
        ({ exA with quantidade_atual := 15, atualizado_em := 1 }, none) := by
  refine ⟨by decide, by decide, ?_⟩
  have := (c4_adicionar_estoque_spec exA (by decide) 5 1).2.2 (by decide)
  simpa using this

/-- Claim C5: on an invariant-satisfying record, `liberar_reserva q` raises
iff `q ≤ 0` (a `ValidationException`) or `q > quantidade_reservada` (a
`BusinessRuleException`); otherwise it succeeds and decreases
`quantidade_reservada` by exactly `q`, leaving `quantidade_atual` and
`nivel_minimo` unchanged. -/
theorem c5_liberar_reserva_spec (s : EstoqueProduto) (h : s.Invariants)
    (q : Int) (now : Nat) :
    ((s.liberar_reserva q now).2.isSome ↔
      (q ≤ 0 ∨ s.quantidade_reservada < q)) ∧
    (q ≤ 0 →
      s.liberar_reserva q now =
        (s, some (.validationErr "Quantity to release must be positive"))) ∧
    (0 < q → s.quantidade_reservada < q →
      s.liberar_reserva q now =
        (s, some (.businessRuleErr
          ("Cannot release more than reserved. Reserved: " ++
            toString s.quantidade_reservada ++ ", Requested: " ++
            toString q)))) ∧
    (0 < q → q ≤ s.quantidade_reservada →
      s.liberar_reserva q now =
        ({ s with quantidade_reservada := s.quantidade_reservada - q,
                  atualizado_em := now }, none)) := by
  refine ⟨?_, ?_, ?_, ?_⟩
  · simp only [EstoqueProduto.liberar_reserva]
    split_ifs <;> simp <;> omega
  · intro hle
    simp only [EstoqueProduto.liberar_reserva]
    split_ifs <;> first | rfl | omega
  · intro hpos hlt
    simp only [EstoqueProduto.liberar_reserva]
    split_ifs <;> first | rfl | omega
  · intro hpos hle
    simp only [EstoqueProduto.liberar_reserva]
    split_ifs <;> first | rfl | omega

theorem c5_liberar_reserva_spec_witness :
    exA.Invariants ∧ (0 : Int) < 2 ∧ (2 : Int) ≤ exA.quantidade_reservada ∧
      exA.liberar_reserva 2 1 =
        ({ exA with quantidade_reservada := 1, atualizado_em := 1 }, none) := by
  refine ⟨by decide, by decide, by decide, ?_⟩
  have := (c5_liberar_reserva_spec exA (by decide) 2 1).2.2.2 (by decide) (by decide)
  simpa using this

/-- Claim C8: whenever one of the five mutating operations raises, the
returned state is the input state, every field included — all validation
checks precede any field assignment, so an error leaves `quantidade_atual`,
`quantidade_reservada`, `nivel_minimo`, `unidade_medida`, and
`atualizado_em` exactly as they were. -/
theorem c8_atomic_on_error (s : EstoqueProduto) (h : s.Invariants)
    (q : Int) (now : Nat) :
    ((s.adicionar_estoque q now).2.isSome → (s.adicionar_estoque q now).1 = s) ∧
    ((s.remover_estoque q now).2.isSome → (s.remover_estoque q now).1 = s) ∧
    ((s.liberar_reserva q now).2.isSome → (s.liberar_reserva q now).1 = s) ∧
    ((s.ajustar_estoque q now).2.isSome → (s.ajustar_estoque q now).1 = s) ∧
    ((s.update_minimum_level q now).2.isSome →
      (s.update_minimum_level q now).1 = s) := by
  refine ⟨?_, ?_, ?_, ?_, ?_⟩
  · simp only [EstoqueProduto.adicionar_estoque]
    split_ifs <;> simp
  · simp only [EstoqueProduto.remover_estoque]
    split_ifs <;> simp
  · simp only [EstoqueProduto.liberar_reserva]
    split_ifs <;> simp
  · simp only [EstoqueProduto.ajustar_estoque]
    split_ifs <;> simp
  · simp only [EstoqueProduto.update_minimum_level]
    split_ifs <;> simp

theorem c8_atomic_on_error_witness :
    exA.Invariants ∧ (exA.adicionar_estoque 0 1).2.isSome = true ∧
      (exA.adicionar_estoque 0 1).1 = exA :=
  ⟨by decide, by decide,
    (c8_atomic_on_error exA (by decide) 0 1).1 (by decide)⟩

/-- A record well above its minimum level: `quantidade_atual = 10`,
`quantidade_reservada = 0`, `nivel_minimo = 8`. -/
def exMin : EstoqueProduto := ⟨0, 10, 0, 8, "UN", 0⟩

/-- The same quantities as `exMin` but a different minimum level. -/
def exMin2 : EstoqueProduto := ⟨0, 10, 0, 2, "UN", 0⟩

/-- Claim C9: `nivel_minimo` never influences a mutation — for two
invariant-satisfying records agreeing on `quantidade_atual` and
`quantidade_reservada`, each of the four stock operations raises the very
same error on both or succeeds on both with identical resulting
quantities; and `remover_estoque` and `ajustar_estoque` can drive
`quantidade_atual` to or below `nivel_minimo` without raising. -/
theorem c9_nivel_minimo_no_influence (s₁ s₂ : EstoqueProduto)
    (h₁ : s₁.Invariants) (h₂ : s₂.Invariants) (q : Int) (now : Nat)
    (hqa : s₁.quantidade_atual = s₂.quantidade_atual)
    (hqr : s₁.quantidade_reservada = s₂.quantidade_reservada) :
    ((s₁.adicionar_estoque q now).2 = (s₂.adicionar_estoque q now).2 ∧
      (s₁.adicionar_estoque q now).1.quantidade_atual =
        (s₂.adicionar_estoque q now).1.quantidade_atual ∧
      (s₁.adicionar_estoque q now).1.quantidade_reservada =
        (s₂.adicionar_estoque q now).1.quantidade_reservada) ∧
    ((s₁.remover_estoque q now).2 = (s₂.remover_estoque q now).2 ∧
      (s₁.remover_estoque q now).1.quantidade_atual =
        (s₂.remover_estoque q now).1.quantidade_atual ∧
      (s₁.remover_estoque q now).1.quantidade_reservada =
        (s₂.remover_estoque q now).1.quantidade_reservada) ∧
    ((s₁.liberar_reserva q now).2 = (s₂.liberar_reserva q now).2 ∧
      (s₁.liberar_reserva q now).1.quantidade_atual =
        (s₂.liberar_reserva q now).1.quantidade_atual ∧
      (s₁.liberar_reserva q now).1.quantidade_reservada =
        (s₂.liberar_reserva q now).1.quantidade_reservada) ∧
    ((s₁.ajustar_estoque q now).2 = (s₂.ajustar_estoque q now).2 ∧
      (s₁.ajustar_estoque q now).1.quantidade_atual =
        (s₂.ajustar_estoque q now).1.quantidade_atual ∧
      (s₁.ajustar_estoque q now).1.quantidade_reservada =
        (s₂.ajustar_estoque q now).1.quantidade_reservada) ∧
    ((exMin.remover_estoque 5 1).2 = none ∧
      (exMin.remover_estoque 5 1).1.quantidade_atual ≤
        (exMin.remover_estoque 5 1).1.nivel_minimo) ∧
    ((exMin.ajustar_estoque 2 1).2 = none ∧
      (exMin.ajustar_estoque 2 1).1.quantidade_atual ≤
        (exMin.ajustar_estoque 2 1).1.nivel_minimo) := by
  refine ⟨?_, ?_, ?_, ?_, by decide, by decide⟩
  · simp only [EstoqueProduto.adicionar_estoque, hqa, hqr]
    split_ifs <;> simp [hqa, hqr]
  · simp only [EstoqueProduto.remover_estoque,
      EstoqueProduto.quantidade_disponivel, hqa, hqr]
    split_ifs <;> simp [hqa, hqr]
  · simp only [EstoqueProduto.liberar_reserva, hqa, hqr]
    split_ifs <;> simp [hqa, hqr]
  · simp only [EstoqueProduto.ajustar_estoque, hqa, hqr]
    split_ifs <;> simp [hqa, hqr]

theorem c9_nivel_minimo_no_influence_witness :
    exMin.Invariants ∧ exMin2.Invariants ∧
      exMin.quantidade_atual = exMin2.quantidade_atual ∧
      exMin.quantidade_reservada = exMin2.quantidade_reservada ∧
      (exMin.remover_estoque 5 1).2 = (exMin2.remover_estoque 5 1).2 :=
  ⟨by decide, by decide, by decide, by decide,
    (c9_nivel_minimo_no_influence exMin exMin2 (by decide) (by decide) 5 1
      (by decide) (by decide)).2.1.1⟩

/-- Claim C10: `has_available_stock` validates nothing — for every integer
`q`, negative or zero included, it returns `true` exactly when
`quantidade_atual - quantidade_reservada ≥ q`; hence on any
invariant-satisfying record it returns `true` for every `q ≤ 0`. -/
theorem c10_has_available_stock_spec (s : EstoqueProduto) (q : Int) :
    (s.has_available_stock q = true ↔
      q ≤ s.quantidade_atual - s.quantidade_reservada) ∧
    (s.Invariants → q ≤ 0 → s.has_available_stock q = true) := by
  constructor
  · simp [EstoqueProduto.has_available_stock,
      EstoqueProduto.quantidade_disponivel, ge_iff_le]
  · intro hInv hq
    simp only [EstoqueProduto.has_available_stock,
      EstoqueProduto.quantidade_disponivel, ge_iff_le, decide_eq_true_eq]
    simp only [EstoqueProduto.Invariants] at hInv
    omega

theorem c10_has_available_stock_spec_witness :
    exA.Invariants ∧ (-1 : Int) ≤ 0 ∧ exA.has_available_stock (-1) = true :=
  ⟨by decide, by decide,
    (c10_has_available_stock_spec exA (-1)).2 (by decide) (by decide)⟩

/-- A service stub returning a fixed success, used to instantiate the
abstracted service argument of `list_inventory_handler`. -/
def svcOk : Int → Int → HttpResult := fun _ _ => .success "ok"

/-- A second, distinguishable service stub. -/
def svcOther : Int → Int → HttpResult := fun _ _ => .success "other"

/-- Claim C6: the list handler rejects out-of-bounds pagination with a 400
without invoking the service — the result is the same for every service
function — and passes in-bounds `skip` and `limit` to the service
unchanged; in particular `limit = 1001` and `skip = -1` are rejected. -/
theorem c6_list_pagination (skip limit : Int)
    (service service' : Int → Int → HttpResult) :
    ((skip < 0 ∨ limit < 1 ∨ limit > 1000) →
      list_inventory_handler skip limit service =
        list_inventory_handler skip limit service' ∧
      ∃ m, list_inventory_handler skip limit service = .lambdaError 400 m) ∧
    (0 ≤ skip → 1 ≤ limit → limit ≤ 1000 →
      list_inventory_handler skip limit service = service skip limit) ∧
    (∃ m, list_inventory_handler 0 1001 service = .lambdaError 400 m) ∧
    (∃ m, list_inventory_handler (-1) 100 service = .lambdaError 400 m) := by
  refine ⟨?_, ?_, ?_, ?_⟩
  · intro hbad
    simp only [list_inventory_handler]
    split_ifs with hA hB
    · exact ⟨rfl, _, rfl⟩
    · exact ⟨rfl, _, rfl⟩
    · exfalso; omega
  · intro h0 h1 h2
    simp only [list_inventory_handler]
    split_ifs with hA hB
    · exfalso; omega
    · exfalso; omega
    · rfl
  · simp only [list_inventory_handler]
    norm_num
  · simp only [list_inventory_handler]
    norm_num

theorem c6_list_pagination_witness :
    (0 : Int) ≤ 2 ∧ (1 : Int) ≤ 100 ∧ (100 : Int) ≤ 1000 ∧
      list_inventory_handler 2 100 svcOk = svcOk 2 100 :=
  ⟨by decide, by decide, by decide,
    (c6_list_pagination 2 100 svcOk svcOther).2.1 (by decide) (by decide)
      (by decide)⟩

/-- A UUID check that accepts every string, standing for a well-formed id. -/
def uuidOk : String → Bool := fun _ => true

/-- A service call that raises a `ValidationException`. -/
def svcValidationRaises : String → CallResult (Option String) :=
  fun _ => .exc (.validationE "bad input")

/-- Claim C7, counterexample: the get-inventory-by-product handler does
NOT map a `ValidationException` from the service to a 400 — with a present
well-formed id and a service raising `ValidationException "bad input"`, it
answers a generic 500, not a 400 carrying the message. -/
theorem c7_counterexample_get_handler_500 :
    get_inventory_by_product_handler (some "abc") uuidOk svcValidationRaises =
      .lambdaError 500 "Internal server error" ∧
    get_inventory_by_product_handler (some "abc") uuidOk svcValidationRaises ≠
      .lambdaError 400 "bad input" := by
  constructor
  · rfl
  · decide

/-- Claim C7 amended: the create/add/remove/adjust handlers map a service
outcome as the claim states — success to 200 (201 for create),
`ValidationException` to 400 with its message, `BusinessRuleException` to
409 with its message, anything else to a generic 500 — while the
get-inventory-by-product handler maps a found record to 200, a missing
record to 404, a missing id to 400, re-raises a `LambdaException`
unchanged, and maps every other exception, the two domain exceptions
included, to a generic 500 rather than 400/409. -/
theorem c7_handler_error_mapping (m body pid inv : String) (st : Nat)
    (uuid_check : String → Bool) (hpid : pid ≠ "")
    (huuid : uuid_check pid = true) :
    add_stock_handler (.ok body) = .success body ∧
    add_stock_handler (.exc (.validationE m)) = .lambdaError 400 m ∧
    add_stock_handler (.exc (.businessE m)) = .lambdaError 409 m ∧
    add_stock_handler (.exc (.otherE m)) =
      .lambdaError 500 "Internal server error" ∧
    remove_stock_handler (.exc (.validationE m)) = .lambdaError 400 m ∧
    remove_stock_handler (.exc (.businessE m)) = .lambdaError 409 m ∧
    adjust_stock_handler (.exc (.validationE m)) = .lambdaError 400 m ∧
    adjust_stock_handler (.exc (.businessE m)) = .lambdaError 409 m ∧
    create_inventory_handler (.ok body) = .created body ∧
    create_inventory_handler (.exc (.validationE m)) = .lambdaError 400 m ∧
    create_inventory_handler (.exc (.businessE m)) = .lambdaError 409 m ∧
    get_inventory_by_product_handler (some pid) uuid_check
      (fun _ => .ok (some inv)) = .success inv ∧
    get_inventory_by_product_handler (some pid) uuid_check
      (fun _ => .ok none) =
        .lambdaError 404 ("Inventory not found for product: " ++ pid) ∧
    get_inventory_by_product_handler (some pid) uuid_check
      (fun _ => .exc (.validationE m)) =
        .lambdaError 500 "Internal server error" ∧
    get_inventory_by_product_handler (some pid) uuid_check
      (fun _ => .exc (.businessE m)) =
        .lambdaError 500 "Internal server error" ∧
    get_inventory_by_product_handler (some pid) uuid_check
      (fun _ => .exc (.lambdaE st m)) = .lambdaError st m ∧
    get_inventory_by_product_handler none uuid_check
      (fun _ => .ok (some inv)) = .lambdaError 400 "produto_id is required" := by
  refine ⟨rfl, rfl, rfl, rfl, rfl, rfl, rfl, rfl, rfl, rfl, rfl,
    ?_, ?_, ?_, ?_, ?_, rfl⟩ <;>
    simp [get_inventory_by_product_handler, hpid, huuid]

theorem c7_handler_error_mapping_witness :
    ("abc" : String) ≠ "" ∧ uuidOk "abc" = true ∧
      add_stock_handler (.exc (.validationE "msg")) = .lambdaError 400 "msg" :=
  ⟨by decide, by decide,
    (c7_handler_error_mapping "msg" "b" "abc" "inv" 0 uuidOk (by decide)
      (by decide)).2.1⟩
